import Mathlib

/-!
Shallow embedding of the MERN_BLOG portfolio server: the active (drizzle /
postgres) schema flavor in the shared schema module, the `DatabaseStorage`
class in `server/storage.ts`, and the Express route handlers registered in
`server/routes.ts`. Records are plain structures; the store is a structure
of per-table lists plus per-table serial counters; database timestamps and
`new Date()` are a `now : Nat` parameter; postgres unique constraints and
enum column checks are modelled as explicit checks that make the write
fail without modifying the store (the handler's catch turns such failures
into HTTP 500, while Zod validation failures become HTTP 400).
-/

namespace Portfolio

/-- Skill categories, from the `skill_category` pgEnum in the shared schema. -/
def skillCategories : List String := ["frontend", "backend", "database", "tools", "cloud"]

/-- Row of the `projects` table. -/
structure Project where
  id : Nat
  title : String
  description : String
  imageUrl : String
  technologies : List String
  projectUrl : Option String
  githubUrl : Option String
  featured : Bool
  authorId : Option Nat
  createdAt : Nat
deriving Repr, DecidableEq

/-- Row of the `skills` table (`category` is checked against the pgEnum on write). -/
structure Skill where
  id : Nat
  name : String
  percentage : Int
  category : String
  order : Int
deriving Repr, DecidableEq

/-- Row of the `categories` table (`name` and `slug` are unique columns). -/
structure Category where
  id : Nat
  name : String
  slug : String
deriving Repr, DecidableEq

/-- Row of the `blogs` table (`slug` is a unique column). -/
structure Blog where
  id : Nat
  title : String
  slug : String
  content : String
  excerpt : String
  imageUrl : String
  categoryId : Option Nat
  authorId : Option Nat
  published : Bool
  createdAt : Nat
  updatedAt : Nat
deriving Repr, DecidableEq

/-- Row of the `videos` table. -/
structure Video where
  id : Nat
  title : String
  videoId : String
  thumbnailUrl : String
  views : Option Int
  publishedAt : Option Nat
  featured : Bool
  order : Int
deriving Repr, DecidableEq

/-- Row of the `contacts` table. -/
structure Contact where
  id : Nat
  name : String
  email : String
  subject : String
  message : String
  read : Bool
  createdAt : Nat
deriving Repr, DecidableEq

/-- The database: one list per table plus each table's serial id sequence. -/
structure Store where
  projects : List Project
  skills : List Skill
  categories : List Category
  blogs : List Blog
  videos : List Video
  contacts : List Contact
  nextProjectId : Nat
  nextSkillId : Nat
  nextCategoryId : Nat
  nextBlogId : Nat
  nextVideoId : Nat
  nextContactId : Nat
deriving Repr, DecidableEq

/-! List-level primitives shared by every table: `SELECT ... WHERE id = ?`,
`UPDATE ... WHERE id = ? RETURNING *`, `DELETE ... WHERE id = ? RETURNING *`,
and `ORDER BY`. -/

/-- Insertion step of the sort used to model `ORDER BY key DESC`. -/
def insertDescBy {α β : Type} [LinearOrder β] (f : α → β) (x : α) : List α → List α
  | [] => [x]
  | y :: ys => if f y < f x then x :: y :: ys else y :: insertDescBy f x ys

/-- Sort a table descending on a key, as `ORDER BY key DESC` does. -/
def sortDescBy {α β : Type} [LinearOrder β] (f : α → β) : List α → List α
  | [] => []
  | x :: xs => insertDescBy f x (sortDescBy f xs)

/-- Insertion step of the sort used to model `ORDER BY key ASC`. -/
def insertAscBy {α β : Type} [LinearOrder β] (f : α → β) (x : α) : List α → List α
  | [] => [x]
  | y :: ys => if f x < f y then x :: y :: ys else y :: insertAscBy f x ys

/-- Sort a table ascending on a key, as `ORDER BY key` does. -/
def sortAscBy {α β : Type} [LinearOrder β] (f : α → β) : List α → List α
  | [] => []
  | x :: xs => insertAscBy f x (sortAscBy f xs)

/-- Fetch the row with the given id (`SELECT ... WHERE id = ?` on a serial key). -/
def findById {α : Type} (getId : α → Nat) (i : Nat) (l : List α) : Option α :=
  l.find? (fun x => getId x == i)

/-- Apply `f` to the row with the given id; return the new table and the
returned row (`UPDATE ... SET ... WHERE id = ? RETURNING *`). -/
def updateById {α : Type} (getId : α → Nat) (i : Nat) (f : α → α) (l : List α) :
    List α × Option α :=
  match l.find? (fun x => getId x == i) with
  | none => (l, none)
  | some x => (l.map (fun y => if getId y == i then f y else y), some (f x))

/-- Remove the row with the given id; return the new table and whether a row
was removed (`DELETE ... WHERE id = ? RETURNING *`, then `!!deleted`). -/
def deleteById {α : Type} (getId : α → Nat) (i : Nat) (l : List α) : List α × Bool :=
  (l.filter (fun x => getId x != i), l.any (fun x => getId x == i))

/-! Validated insert shapes (the output types of the drizzle-zod insert schemas). -/

/-- Parse result of `insertProjectSchema` (omits `id` and `createdAt`). -/
structure InsertProject where
  title : String
  description : String
  imageUrl : String
  technologies : List String
  projectUrl : Option String
  githubUrl : Option String
  featured : Bool
  authorId : Option Nat
deriving Repr, DecidableEq

/-- Parse result of `insertSkillSchema` (omits `id`; `order` defaulted). -/
structure InsertSkill where
  name : String
  percentage : Int
  category : String
  order : Int
deriving Repr, DecidableEq

/-- Parse result of `insertCategorySchema` (omits `id`). -/
structure InsertCategory where
  name : String
  slug : String
deriving Repr, DecidableEq

/-- Parse result of `insertBlogSchema` (omits `id`, `createdAt`, `updatedAt`). -/
structure InsertBlog where
  title : String
  slug : String
  content : String
  excerpt : String
  imageUrl : String
  categoryId : Option Nat
  authorId : Option Nat
  published : Bool
deriving Repr, DecidableEq

/-- Parse result of `insertVideoSchema` (omits `id`; `order` defaulted). -/
structure InsertVideo where
  title : String
  videoId : String
  thumbnailUrl : String
  views : Option Int
  publishedAt : Option Nat
  featured : Bool
  order : Int
deriving Repr, DecidableEq

/-- Parse result of `insertContactSchema` (omits `id`, `read`, `createdAt`). -/
structure InsertContact where
  name : String
  email : String
  subject : String
  message : String
deriving Repr, DecidableEq

/-! Partial update shapes (`Partial<InsertE>` objects handed to `.set`). -/

/-- Partial update of a Project: only the present fields are set. -/
structure ProjectPatch where
  title : Option String := none
  description : Option String := none
  technologies : Option (List String) := none
  imageUrl : Option String := none
  projectUrl : Option String := none
  githubUrl : Option String := none
  featured : Option Bool := none
deriving Repr, DecidableEq

/-- Partial update of a Skill: only the present fields are set. -/
structure SkillPatch where
  name : Option String := none
  percentage : Option Int := none
  category : Option String := none
  order : Option Int := none
deriving Repr, DecidableEq

/-- Partial update of a Category: only the present fields are set. -/
structure CategoryPatch where
  name : Option String := none
  slug : Option String := none
deriving Repr, DecidableEq

/-- Partial update of a Blog: only the present fields are set
(`updatedAt` is supplied separately by `updateBlog`). -/
structure BlogPatch where
  title : Option String := none
  slug : Option String := none
  content : Option String := none
  excerpt : Option String := none
  imageUrl : Option String := none
  categoryId : Option Nat := none
  published : Option Bool := none
deriving Repr, DecidableEq

/-- Partial update of a Video: only the present fields are set. -/
structure VideoPatch where
  title : Option String := none
  videoId : Option String := none
  thumbnailUrl : Option String := none
  views : Option (Option Int) := none
  publishedAt : Option Nat := none
  featured : Option Bool := none
  order : Option Int := none
deriving Repr, DecidableEq

/-- Effect of `.set(patch)` on a Project row. -/
def applyProjectPatch (p : ProjectPatch) (x : Project) : Project :=
  { x with
    title := p.title.getD x.title
    description := p.description.getD x.description
    technologies := p.technologies.getD x.technologies
    imageUrl := p.imageUrl.getD x.imageUrl
    projectUrl := match p.projectUrl with | some v => some v | none => x.projectUrl
    githubUrl := match p.githubUrl with | some v => some v | none => x.githubUrl
    featured := p.featured.getD x.featured }

/-- Effect of `.set(patch)` on a Skill row. -/
def applySkillPatch (p : SkillPatch) (x : Skill) : Skill :=
  { x with
    name := p.name.getD x.name
    percentage := p.percentage.getD x.percentage
    category := p.category.getD x.category
    order := p.order.getD x.order }

/-- Effect of `.set(patch)` on a Category row. -/
def applyCategoryPatch (p : CategoryPatch) (x : Category) : Category :=
  { x with name := p.name.getD x.name, slug := p.slug.getD x.slug }

/-- Effect of `.set({...patch, updatedAt})` on a Blog row. -/
def applyBlogPatch (p : BlogPatch) (now : Nat) (x : Blog) : Blog :=
  { x with
    title := p.title.getD x.title
    slug := p.slug.getD x.slug
    content := p.content.getD x.content
    excerpt := p.excerpt.getD x.excerpt
    imageUrl := p.imageUrl.getD x.imageUrl
    categoryId := match p.categoryId with | some v => some v | none => x.categoryId
    published := p.published.getD x.published
    updatedAt := now }

/-- Effect of `.set(patch)` on a Video row. -/
def applyVideoPatch (p : VideoPatch) (x : Video) : Video :=
  { x with
    title := p.title.getD x.title
    videoId := p.videoId.getD x.videoId
    thumbnailUrl := p.thumbnailUrl.getD x.thumbnailUrl
    views := p.views.getD x.views
    publishedAt := match p.publishedAt with | some v => some v | none => x.publishedAt
    featured := p.featured.getD x.featured
    order := p.order.getD x.order }

/-! Storage layer: the `DatabaseStorage` methods of `server/storage.ts`.
Writes that the database itself rejects (unique-constraint or enum-column
violations) return `none` and leave the store untouched. -/

/-- DatabaseStorage.getAllProjects: all projects, createdAt descending. -/
def getAllProjects (s : Store) : List Project :=
  sortDescBy Project.createdAt s.projects

/-- DatabaseStorage.getFeaturedProjects: featured projects, createdAt descending. -/
def getFeaturedProjects (s : Store) : List Project :=
  sortDescBy Project.createdAt (s.projects.filter (fun x => x.featured))

/-- DatabaseStorage.getProject. -/
def getProject (s : Store) (i : Nat) : Option Project :=
  findById Project.id i s.projects

/-- DatabaseStorage.createProject (`id` from the serial sequence, `createdAt`
from the column default `now()`). -/
def createProject (s : Store) (ins : InsertProject) (now : Nat) : Store × Project :=
  let pr : Project :=
    { id := s.nextProjectId, title := ins.title, description := ins.description,
      imageUrl := ins.imageUrl, technologies := ins.technologies,
      projectUrl := ins.projectUrl, githubUrl := ins.githubUrl,
      featured := ins.featured, authorId := ins.authorId, createdAt := now }
  ({ s with projects := s.projects ++ [pr], nextProjectId := s.nextProjectId + 1 }, pr)

/-- DatabaseStorage.updateProject. -/
def updateProject (s : Store) (i : Nat) (p : ProjectPatch) : Store × Option Project :=
  let r := updateById Project.id i (applyProjectPatch p) s.projects
  ({ s with projects := r.1 }, r.2)

/-- DatabaseStorage.deleteProject. -/
def deleteProject (s : Store) (i : Nat) : Store × Bool :=
  let r := deleteById Project.id i s.projects
  ({ s with projects := r.1 }, r.2)

/-- DatabaseStorage.getAllSkills: order ascending. -/
def getAllSkills (s : Store) : List Skill :=
  sortAscBy Skill.order s.skills

/-- DatabaseStorage.getSkillsByCategory. -/
def getSkillsByCategory (s : Store) (c : String) : List Skill :=
  sortAscBy Skill.order (s.skills.filter (fun x => x.category == c))

/-- DatabaseStorage.getSkill. -/
def getSkill (s : Store) (i : Nat) : Option Skill :=
  findById Skill.id i s.skills

/-- DatabaseStorage.createSkill; the enum column rejects a category outside
`skillCategories` at the database. -/
def createSkill (s : Store) (ins : InsertSkill) : Option (Store × Skill) :=
  if skillCategories.contains ins.category then
    let sk : Skill :=
      { id := s.nextSkillId, name := ins.name, percentage := ins.percentage,
        category := ins.category, order := ins.order }
    some ({ s with skills := s.skills ++ [sk], nextSkillId := s.nextSkillId + 1 }, sk)
  else none

/-- DatabaseStorage.updateSkill; a patch carrying a category outside the
enum fails at the database. -/
def updateSkill (s : Store) (i : Nat) (p : SkillPatch) : Option (Store × Option Skill) :=
  match p.category with
  | some c =>
    if skillCategories.contains c then
      let r := updateById Skill.id i (applySkillPatch p) s.skills
      some ({ s with skills := r.1 }, r.2)
    else none
  | none =>
    let r := updateById Skill.id i (applySkillPatch p) s.skills
    some ({ s with skills := r.1 }, r.2)

/-- DatabaseStorage.deleteSkill. -/
def deleteSkill (s : Store) (i : Nat) : Store × Bool :=
  let r := deleteById Skill.id i s.skills
  ({ s with skills := r.1 }, r.2)

/-- DatabaseStorage.getAllCategories: name ascending. -/
def getAllCategories (s : Store) : List Category :=
  sortAscBy Category.name s.categories

/-- DatabaseStorage.getCategory. -/
def getCategory (s : Store) (i : Nat) : Option Category :=
  findById Category.id i s.categories

/-- DatabaseStorage.getCategoryBySlug. -/
def getCategoryBySlug (s : Store) (slug : String) : Option Category :=
  s.categories.find? (fun x => x.slug == slug)

/-- DatabaseStorage.createCategory; `name` and `slug` unique constraints. -/
def createCategory (s : Store) (ins : InsertCategory) : Option (Store × Category) :=
  if s.categories.any (fun x => x.name == ins.name || x.slug == ins.slug) then none
  else
    let c : Category := { id := s.nextCategoryId, name := ins.name, slug := ins.slug }
    some ({ s with categories := s.categories ++ [c]
                   nextCategoryId := s.nextCategoryId + 1 }, c)

/-- DatabaseStorage.updateCategory; the updated row must not collide with
another row on `name` or `slug`. -/
def updateCategory (s : Store) (i : Nat) (p : CategoryPatch) :
    Option (Store × Option Category) :=
  match s.categories.find? (fun x => x.id == i) with
  | none => some (s, none)
  | some x =>
    let upd := applyCategoryPatch p x
    if s.categories.any (fun y => y.id != x.id && (y.name == upd.name || y.slug == upd.slug))
    then none
    else
      let r := updateById Category.id i (applyCategoryPatch p) s.categories
      some ({ s with categories := r.1 }, r.2)

/-- DatabaseStorage.deleteCategory. -/
def deleteCategory (s : Store) (i : Nat) : Store × Bool :=
  let r := deleteById Category.id i s.categories
  ({ s with categories := r.1 }, r.2)

/-- DatabaseStorage.getAllBlogs: optional equality filter on `published`,
then createdAt descending. -/
def getAllBlogs (s : Store) (published : Option Bool) : List Blog :=
  match published with
  | some b => sortDescBy Blog.createdAt (s.blogs.filter (fun x => x.published == b))
  | none => sortDescBy Blog.createdAt s.blogs

/-- DatabaseStorage.getFeaturedBlogs: published, createdAt descending, limit 3. -/
def getFeaturedBlogs (s : Store) : List Blog :=
  (sortDescBy Blog.createdAt (s.blogs.filter (fun x => x.published))).take 3

/-- DatabaseStorage.getBlog. -/
def getBlog (s : Store) (i : Nat) : Option Blog :=
  findById Blog.id i s.blogs

/-- DatabaseStorage.getBlogBySlug. -/
def getBlogBySlug (s : Store) (slug : String) : Option Blog :=
  s.blogs.find? (fun x => x.slug == slug)

/-- DatabaseStorage.createBlog; the `slug` unique constraint rejects a
duplicate; `updatedAt` is set by the method, `createdAt` by the column default. -/
def createBlog (s : Store) (ins : InsertBlog) (now : Nat) : Option (Store × Blog) :=
  if s.blogs.any (fun x => x.slug == ins.slug) then none
  else
    let b : Blog :=
      { id := s.nextBlogId, title := ins.title, slug := ins.slug, content := ins.content,
        excerpt := ins.excerpt, imageUrl := ins.imageUrl, categoryId := ins.categoryId,
        authorId := ins.authorId, published := ins.published,
        createdAt := now, updatedAt := now }
    some ({ s with blogs := s.blogs ++ [b], nextBlogId := s.nextBlogId + 1 }, b)

/-- DatabaseStorage.updateBlog; refreshes `updatedAt`; the `slug` unique
constraint rejects a patch that collides with a different row. -/
def updateBlog (s : Store) (i : Nat) (p : BlogPatch) (now : Nat) :
    Option (Store × Option Blog) :=
  match s.blogs.find? (fun x => x.id == i) with
  | none => some (s, none)
  | some x =>
    let newSlug := p.slug.getD x.slug
    if s.blogs.any (fun y => y.id != x.id && y.slug == newSlug) then none
    else
      let r := updateById Blog.id i (applyBlogPatch p now) s.blogs
      some ({ s with blogs := r.1 }, r.2)

/-- DatabaseStorage.deleteBlog. -/
def deleteBlog (s : Store) (i : Nat) : Store × Bool :=
  let r := deleteById Blog.id i s.blogs
  ({ s with blogs := r.1 }, r.2)

/-- DatabaseStorage.getAllVideos: order ascending. -/
def getAllVideos (s : Store) : List Video :=
  sortAscBy Video.order s.videos

/-- DatabaseStorage.getFeaturedVideos: featured, order ascending. -/
def getFeaturedVideos (s : Store) : List Video :=
  sortAscBy Video.order (s.videos.filter (fun x => x.featured))

/-- DatabaseStorage.getVideo. -/
def getVideo (s : Store) (i : Nat) : Option Video :=
  findById Video.id i s.videos

/-- DatabaseStorage.createVideo. -/
def createVideo (s : Store) (ins : InsertVideo) : Store × Video :=
  let v : Video :=
    { id := s.nextVideoId, title := ins.title, videoId := ins.videoId,
      thumbnailUrl := ins.thumbnailUrl, views := ins.views,
      publishedAt := ins.publishedAt, featured := ins.featured, order := ins.order }
  ({ s with videos := s.videos ++ [v], nextVideoId := s.nextVideoId + 1 }, v)

/-- DatabaseStorage.updateVideo. -/
def updateVideo (s : Store) (i : Nat) (p : VideoPatch) : Store × Option Video :=
  let r := updateById Video.id i (applyVideoPatch p) s.videos
  ({ s with videos := r.1 }, r.2)

/-- DatabaseStorage.deleteVideo. -/
def deleteVideo (s : Store) (i : Nat) : Store × Bool :=
  let r := deleteById Video.id i s.videos
  ({ s with videos := r.1 }, r.2)

/-- DatabaseStorage.getAllContacts: createdAt descending. -/
def getAllContacts (s : Store) : List Contact :=
  sortDescBy Contact.createdAt s.contacts

/-- DatabaseStorage.getUnreadContacts. -/
def getUnreadContacts (s : Store) : List Contact :=
  sortDescBy Contact.createdAt (s.contacts.filter (fun x => !x.read))

/-- DatabaseStorage.getContact. -/
def getContact (s : Store) (i : Nat) : Option Contact :=
  findById Contact.id i s.contacts

/-- DatabaseStorage.createContact (`id` serial, `read` column default false,
`createdAt` column default `now()`). -/
def createContact (s : Store) (ins : InsertContact) (now : Nat) : Store × Contact :=
  let c : Contact :=
    { id := s.nextContactId, name := ins.name, email := ins.email,
      subject := ins.subject, message := ins.message, read := false, createdAt := now }
  ({ s with contacts := s.contacts ++ [c], nextContactId := s.nextContactId + 1 }, c)

/-- DatabaseStorage.markContactAsRead: sets `read` to true on the matching row. -/
def markContactAsRead (s : Store) (i : Nat) : Store × Option Contact :=
  let r := updateById Contact.id i (fun c => { c with read := true }) s.contacts
  ({ s with contacts := r.1 }, r.2)

/-- DatabaseStorage.deleteContact. -/
def deleteContact (s : Store) (i : Nat) : Store × Bool :=
  let r := deleteById Contact.id i s.contacts
  ({ s with contacts := r.1 }, r.2)

/-! Content API: the Express handlers of `server/routes.ts`. Each handler is
a function of the acting principal, the store, and the request pieces it
reads; mutating handlers also return the new store. Request bodies are
typed records whose `Option` fields model fields absent from the body. -/

/-- The acting principal: `req.isAuthenticated()` plus `req.user.role`. -/
structure Principal where
  authenticated : Bool
  role : String
deriving Repr, DecidableEq

/-- The `isAdmin` helper in `registerRoutes`. -/
def isAdmin (p : Principal) : Bool :=
  p.authenticated && p.role == "admin"

/-- An HTTP response: status code plus the JSON payload on success. -/
structure HResp (α : Type) where
  status : Nat
  body : Option α
deriving Repr, DecidableEq

/-- Multipart body of POST /api/admin/projects. -/
structure ProjectCreateBody where
  title : String
  description : String
  technologies : Option (List String) := none
  projectUrl : Option String := none
  githubUrl : Option String := none
  featured : Option String := none
deriving Repr, DecidableEq

/-- Multipart body of PUT /api/admin/projects/:id (all fields optional). -/
structure ProjectUpdateBody where
  title : Option String := none
  description : Option String := none
  technologies : Option (List String) := none
  projectUrl : Option String := none
  githubUrl : Option String := none
  featured : Option String := none
deriving Repr, DecidableEq

/-- JSON body of POST /api/admin/skills. -/
structure SkillCreateBody where
  name : String
  percentage : Int
  category : String
  order : Option Int := none
deriving Repr, DecidableEq

/-- Multipart body of POST /api/admin/blogs. -/
structure BlogCreateBody where
  title : String
  slug : String
  content : String
  excerpt : String
  categoryId : Option Nat := none
  published : Option String := none
deriving Repr, DecidableEq

/-- Multipart body of PUT /api/admin/blogs/:id (all fields optional). -/
structure BlogUpdateBody where
  title : Option String := none
  slug : Option String := none
  content : Option String := none
  excerpt : Option String := none
  categoryId : Option Nat := none
  published : Option String := none
deriving Repr, DecidableEq

/-- JSON body of POST /api/admin/videos. -/
structure VideoCreateBody where
  title : String
  videoId : Option String := none
  thumbnailUrl : Option String := none
  views : Option Int := none
  publishedAt : Option Nat := none
  featured : Option String := none
  order : Option Int := none
deriving Repr, DecidableEq

/-- JSON body of PUT /api/admin/videos/:id (all fields optional). -/
structure VideoUpdateBody where
  title : Option String := none
  videoId : Option String := none
  thumbnailUrl : Option String := none
  views : Option Int := none
  publishedAt : Option Nat := none
  featured : Option String := none
  order : Option Int := none
deriving Repr, DecidableEq

/-- JSON body of POST /api/contacts; the extra fields model a client trying
to supply the server-owned columns. -/
structure ContactBody where
  name : String
  email : String
  subject : String
  message : String
  readField : Option Bool := none
  idField : Option Nat := none
  createdAtField : Option Nat := none
deriving Repr, DecidableEq

/-- insertContactSchema.parse: keeps exactly name, email, subject, message;
`id`, `read` and `createdAt` are omitted from the schema and Zod strips
unknown keys. -/
def parseInsertContact (b : ContactBody) : InsertContact :=
  { name := b.name, email := b.email, subject := b.subject, message := b.message }

/-- GET /api/projects: the featured subset exactly when `?featured=true`. -/
def getProjectsRoute (s : Store) (featuredQ : Option String) : HResp (List Project) :=
  if featuredQ == some "true" then ⟨200, some (getFeaturedProjects s)⟩
  else ⟨200, some (getAllProjects s)⟩

/-- GET /api/projects/:id. -/
def getProjectRoute (s : Store) (i : Nat) : HResp Project :=
  match getProject s i with
  | none => ⟨404, none⟩
  | some pr => ⟨200, some pr⟩

/-- POST /api/admin/projects: admin only, image required, validated create. -/
def postProjectRoute (p : Principal) (s : Store) (body : ProjectCreateBody)
    (file : Option String) (uid : Option Nat) (now : Nat) : HResp Project × Store :=
  if isAdmin p then
    match file with
    | none => (⟨400, none⟩, s)
    | some f =>
      let ins : InsertProject :=
        { title := body.title, description := body.description,
          technologies := body.technologies.getD [],
          imageUrl := "/uploads/" ++ f,
          projectUrl := body.projectUrl, githubUrl := body.githubUrl,
          featured := body.featured == some "true", authorId := uid }
      let r := createProject s ins now
      (⟨201, some r.2⟩, r.1)
  else (⟨403, none⟩, s)

/-- PUT /api/admin/projects/:id: admin only; image and technologies default
to the existing row; `featured` is recomputed from the body string. -/
def putProjectRoute (p : Principal) (s : Store) (i : Nat) (body : ProjectUpdateBody)
    (file : Option String) : HResp Project × Store :=
  if isAdmin p then
    match getProject s i with
    | none => (⟨404, none⟩, s)
    | some existing =>
      let imageUrl := match file with
        | some f => "/uploads/" ++ f
        | none => existing.imageUrl
      let patch : ProjectPatch :=
        { title := body.title, description := body.description,
          technologies := some (body.technologies.getD existing.technologies),
          imageUrl := some imageUrl,
          projectUrl := body.projectUrl, githubUrl := body.githubUrl,
          featured := some (body.featured == some "true") }
      let r := updateProject s i patch
      (⟨200, r.2⟩, r.1)
  else (⟨403, none⟩, s)

/-- DELETE /api/admin/projects/:id. -/
def deleteProjectRoute (p : Principal) (s : Store) (i : Nat) : HResp Unit × Store :=
  if isAdmin p then
    let r := deleteProject s i
    if r.2 then (⟨200, some ()⟩, r.1) else (⟨404, none⟩, r.1)
  else (⟨403, none⟩, s)

/-- GET /api/skills: optional category filter (an empty string is falsy). -/
def getSkillsRoute (s : Store) (categoryQ : Option String) : HResp (List Skill) :=
  match categoryQ with
  | some c => if c == "" then ⟨200, some (getAllSkills s)⟩
              else ⟨200, some (getSkillsByCategory s c)⟩
  | none => ⟨200, some (getAllSkills s)⟩

/-- POST /api/admin/skills: admin only; insertSkillSchema.parse checks the
category against the enum (and nothing else beyond field types). -/
def postSkillRoute (p : Principal) (s : Store) (body : SkillCreateBody) :
    HResp Skill × Store :=
  if isAdmin p then
    if skillCategories.contains body.category then
      let ins : InsertSkill :=
        { name := body.name, percentage := body.percentage,
          category := body.category, order := body.order.getD 0 }
      match createSkill s ins with
      | none => (⟨500, none⟩, s)
      | some r => (⟨201, some r.2⟩, r.1)
    else (⟨400, none⟩, s)
  else (⟨403, none⟩, s)

/-- PUT /api/admin/skills/:id: admin only; `req.body` is passed to
`updateSkill` with no schema validation; a database failure surfaces as 500. -/
def putSkillRoute (p : Principal) (s : Store) (i : Nat) (patch : SkillPatch) :
    HResp Skill × Store :=
  if isAdmin p then
    match updateSkill s i patch with
    | none => (⟨500, none⟩, s)
    | some (s2, none) => (⟨404, none⟩, s2)
    | some (s2, some sk) => (⟨200, some sk⟩, s2)
  else (⟨403, none⟩, s)

/-- DELETE /api/admin/skills/:id. -/
def deleteSkillRoute (p : Principal) (s : Store) (i : Nat) : HResp Unit × Store :=
  if isAdmin p then
    let r := deleteSkill s i
    if r.2 then (⟨200, some ()⟩, r.1) else (⟨404, none⟩, r.1)
  else (⟨403, none⟩, s)

/-- GET /api/categories. -/
def getCategoriesRoute (s : Store) : HResp (List Category) :=
  ⟨200, some (getAllCategories s)⟩

/-- POST /api/admin/categories. -/
def postCategoryRoute (p : Principal) (s : Store) (body : InsertCategory) :
    HResp Category × Store :=
  if isAdmin p then
    match createCategory s body with
    | none => (⟨500, none⟩, s)
    | some r => (⟨201, some r.2⟩, r.1)
  else (⟨403, none⟩, s)

/-- PUT /api/admin/categories/:id: no schema validation on the patch. -/
def putCategoryRoute (p : Principal) (s : Store) (i : Nat) (patch : CategoryPatch) :
    HResp Category × Store :=
  if isAdmin p then
    match updateCategory s i patch with
    | none => (⟨500, none⟩, s)
    | some (s2, none) => (⟨404, none⟩, s2)
    | some (s2, some c) => (⟨200, some c⟩, s2)
  else (⟨403, none⟩, s)

/-- DELETE /api/admin/categories/:id. -/
def deleteCategoryRoute (p : Principal) (s : Store) (i : Nat) : HResp Unit × Store :=
  if isAdmin p then
    let r := deleteCategory s i
    if r.2 then (⟨200, some ()⟩, r.1) else (⟨404, none⟩, r.1)
  else (⟨403, none⟩, s)

/-- GET /api/blogs: the route passes `!isAdmin` to `getAllBlogs` as the
equality filter on `published`. -/
def getBlogsRoute (p : Principal) (s : Store) : HResp (List Blog) :=
  let onlyPublished := !(isAdmin p)
  ⟨200, some (getAllBlogs s (some onlyPublished))⟩

/-- GET /api/blogs/featured. -/
def getFeaturedBlogsRoute (s : Store) : HResp (List Blog) :=
  ⟨200, some (getFeaturedBlogs s)⟩

/-- GET /api/blogs/:id: a missing id and an unpublished blog read by a
non-admin both answer 404. -/
def getBlogRoute (p : Principal) (s : Store) (i : Nat) : HResp Blog :=
  match getBlog s i with
  | none => ⟨404, none⟩
  | some b => if !b.published && !(isAdmin p) then ⟨404, none⟩ else ⟨200, some b⟩

/-- GET /api/blogs/slug/:slug: same visibility rule as the id route. -/
def getBlogBySlugRoute (p : Principal) (s : Store) (slug : String) : HResp Blog :=
  match getBlogBySlug s slug with
  | none => ⟨404, none⟩
  | some b => if !b.published && !(isAdmin p) then ⟨404, none⟩ else ⟨200, some b⟩

/-- POST /api/admin/blogs: admin only, image required; the duplicate-slug
database failure is not a ZodError, so the catch answers 500. -/
def postBlogRoute (p : Principal) (s : Store) (body : BlogCreateBody)
    (file : Option String) (uid : Option Nat) (now : Nat) : HResp Blog × Store :=
  if isAdmin p then
    match file with
    | none => (⟨400, none⟩, s)
    | some f =>
      let ins : InsertBlog :=
        { title := body.title, slug := body.slug, content := body.content,
          excerpt := body.excerpt, imageUrl := "/uploads/" ++ f,
          categoryId := body.categoryId, authorId := uid,
          published := body.published == some "true" }
      match createBlog s ins now with
      | none => (⟨500, none⟩, s)
      | some r => (⟨201, some r.2⟩, r.1)
  else (⟨403, none⟩, s)

/-- PUT /api/admin/blogs/:id: admin only; no schema re-validation;
`published` is recomputed from the body string; image defaults to the
existing row; a database failure surfaces as 500. -/
def putBlogRoute (p : Principal) (s : Store) (i : Nat) (body : BlogUpdateBody)
    (file : Option String) (now : Nat) : HResp Blog × Store :=
  if isAdmin p then
    match getBlog s i with
    | none => (⟨404, none⟩, s)
    | some existing =>
      let imageUrl := match file with
        | some f => "/uploads/" ++ f
        | none => existing.imageUrl
      let patch : BlogPatch :=
        { title := body.title, slug := body.slug, content := body.content,
          excerpt := body.excerpt, imageUrl := some imageUrl,
          categoryId := body.categoryId,
          published := some (body.published == some "true") }
      match updateBlog s i patch now with
      | none => (⟨500, none⟩, s)
      | some (s2, ob) => (⟨200, ob⟩, s2)
  else (⟨403, none⟩, s)

/-- DELETE /api/admin/blogs/:id. -/
def deleteBlogRoute (p : Principal) (s : Store) (i : Nat) : HResp Unit × Store :=
  if isAdmin p then
    let r := deleteBlog s i
    if r.2 then (⟨200, some ()⟩, r.1) else (⟨404, none⟩, r.1)
  else (⟨403, none⟩, s)

/-- GET /api/videos: the featured subset exactly when `?featured=true`. -/
def getVideosRoute (s : Store) (featuredQ : Option String) : HResp (List Video) :=
  if featuredQ == some "true" then ⟨200, some (getFeaturedVideos s)⟩
  else ⟨200, some (getAllVideos s)⟩

/-- POST /api/admin/videos: thumbnail falls back to the YouTube URL derived
from the video id; `views` defaults to 0; the insert schema requires
`videoId` and a thumbnail. -/
def postVideoRoute (p : Principal) (s : Store) (body : VideoCreateBody) :
    HResp Video × Store :=
  if isAdmin p then
    let thumb : Option String := match body.thumbnailUrl with
      | some t => some t
      | none => body.videoId.map
          (fun v => "https://img.youtube.com/vi/" ++ v ++ "/mqdefault.jpg")
    match body.videoId, thumb with
    | some v, some t =>
      let ins : InsertVideo :=
        { title := body.title, videoId := v, thumbnailUrl := t,
          views := some (body.views.getD 0), publishedAt := body.publishedAt,
          featured := body.featured == some "true", order := body.order.getD 0 }
      let r := createVideo s ins
      (⟨201, some r.2⟩, r.1)
    | _, _ => (⟨400, none⟩, s)
  else (⟨403, none⟩, s)

/-- PUT /api/admin/videos/:id: thumbnail recomputed when the video id
changes and none is supplied; `views` and `featured` always set. -/
def putVideoRoute (p : Principal) (s : Store) (i : Nat) (body : VideoUpdateBody) :
    HResp Video × Store :=
  if isAdmin p then
    match getVideo s i with
    | none => (⟨404, none⟩, s)
    | some existing =>
      let base := body.thumbnailUrl.getD existing.thumbnailUrl
      let thumb := match body.videoId, body.thumbnailUrl with
        | some v, none =>
          if v != existing.videoId
          then "https://img.youtube.com/vi/" ++ v ++ "/mqdefault.jpg"
          else base
        | _, _ => base
      let patch : VideoPatch :=
        { title := body.title, videoId := body.videoId, thumbnailUrl := some thumb,
          views := some (match body.views with
            | some n => some n
            | none => existing.views),
          publishedAt := body.publishedAt,
          featured := some (body.featured == some "true"), order := body.order }
      let r := updateVideo s i patch
      (⟨200, r.2⟩, r.1)
  else (⟨403, none⟩, s)

/-- DELETE /api/admin/videos/:id. -/
def deleteVideoRoute (p : Principal) (s : Store) (i : Nat) : HResp Unit × Store :=
  if isAdmin p then
    let r := deleteVideo s i
    if r.2 then (⟨200, some ()⟩, r.1) else (⟨404, none⟩, r.1)
  else (⟨403, none⟩, s)

/-- GET /api/admin/contacts: admin only, optional unread filter. -/
def getContactsRoute (p : Principal) (s : Store) (unreadQ : Option String) :
    HResp (List Contact) :=
  if isAdmin p then
    if unreadQ == some "true" then ⟨200, some (getUnreadContacts s)⟩
    else ⟨200, some (getAllContacts s)⟩
  else ⟨403, none⟩

/-- GET /api/admin/contacts/:id. -/
def getContactRoute (p : Principal) (s : Store) (i : Nat) : HResp Contact :=
  if isAdmin p then
    match getContact s i with
    | none => ⟨404, none⟩
    | some c => ⟨200, some c⟩
  else ⟨403, none⟩

/-- POST /api/contacts: public; the parsed insert carries only the four
schema fields. -/
def postContactRoute (s : Store) (body : ContactBody) (now : Nat) :
    HResp Contact × Store :=
  let r := createContact s (parseInsertContact body) now
  (⟨201, some r.2⟩, r.1)

/-- PUT /api/admin/contacts/:id/read. -/
def markContactReadRoute (p : Principal) (s : Store) (i : Nat) :
    HResp Contact × Store :=
  if isAdmin p then
    let r := markContactAsRead s i
    match r.2 with
    | none => (⟨404, none⟩, r.1)
    | some c => (⟨200, some c⟩, r.1)
  else (⟨403, none⟩, s)

/-- DELETE /api/admin/contacts/:id. -/
def deleteContactRoute (p : Principal) (s : Store) (i : Nat) : HResp Unit × Store :=
  if isAdmin p then
    let r := deleteContact s i
    if r.2 then (⟨200, some ()⟩, r.1) else (⟨404, none⟩, r.1)
  else (⟨403, none⟩, s)

/-- A mutating request of the content API, with its inputs. -/
inductive Req where
  | projectCreate (p : Principal) (body : ProjectCreateBody) (file : Option String)
      (uid : Option Nat)
  | projectUpdate (p : Principal) (i : Nat) (body : ProjectUpdateBody)
      (file : Option String)
  | projectDelete (p : Principal) (i : Nat)
  | skillCreate (p : Principal) (body : SkillCreateBody)
  | skillUpdate (p : Principal) (i : Nat) (patch : SkillPatch)
  | skillDelete (p : Principal) (i : Nat)
  | categoryCreate (p : Principal) (body : InsertCategory)
  | categoryUpdate (p : Principal) (i : Nat) (patch : CategoryPatch)
  | categoryDelete (p : Principal) (i : Nat)
  | blogCreate (p : Principal) (body : BlogCreateBody) (file : Option String)
      (uid : Option Nat)
  | blogUpdate (p : Principal) (i : Nat) (body : BlogUpdateBody) (file : Option String)
  | blogDelete (p : Principal) (i : Nat)
  | videoCreate (p : Principal) (body : VideoCreateBody)
  | videoUpdate (p : Principal) (i : Nat) (body : VideoUpdateBody)
  | videoDelete (p : Principal) (i : Nat)
  | contactCreate (body : ContactBody)
  | contactMarkRead (p : Principal) (i : Nat)
  | contactDelete (p : Principal) (i : Nat)

/-- Store transition of one mutating request handled at time `now`. -/
def step (r : Req) (now : Nat) (s : Store) : Store :=
  match r with
  | .projectCreate p b f u => (postProjectRoute p s b f u now).2
  | .projectUpdate p i b f => (putProjectRoute p s i b f).2
  | .projectDelete p i => (deleteProjectRoute p s i).2
  | .skillCreate p b => (postSkillRoute p s b).2
  | .skillUpdate p i pt => (putSkillRoute p s i pt).2
  | .skillDelete p i => (deleteSkillRoute p s i).2
  | .categoryCreate p b => (postCategoryRoute p s b).2
  | .categoryUpdate p i pt => (putCategoryRoute p s i pt).2
  | .categoryDelete p i => (deleteCategoryRoute p s i).2
  | .blogCreate p b f u => (postBlogRoute p s b f u now).2
  | .blogUpdate p i b f => (putBlogRoute p s i b f now).2
  | .blogDelete p i => (deleteBlogRoute p s i).2
  | .videoCreate p b => (postVideoRoute p s b).2
  | .videoUpdate p i b => (putVideoRoute p s i b).2
  | .videoDelete p i => (deleteVideoRoute p s i).2
  | .contactCreate b => (postContactRoute s b now).2
  | .contactMarkRead p i => (markContactReadRoute p s i).2
  | .contactDelete p i => (deleteContactRoute p s i).2

/-! Concrete fixtures used to evaluate the handlers. -/

/-- An authenticated admin principal. -/
def adminP : Principal := ⟨true, "admin"⟩

/-- An unauthenticated (public) principal. -/
def publicP : Principal := ⟨false, ""⟩

/-- A published blog. -/
def blogPub : Blog :=
  ⟨1, "pub", "pub-slug", "published content", "the excerpt", "/uploads/a.png",
   none, none, true, 10, 10⟩

/-- An unpublished (draft) blog. -/
def blogDraft : Blog :=
  ⟨2, "draft", "draft-x", "draft content", "the excerpt", "/uploads/b.png",
   none, none, false, 20, 20⟩

/-- A featured project. -/
def projFeat : Project :=
  ⟨1, "proj", "project description", "/uploads/p.png", ["ts"], none, none, true, none, 5⟩

/-- A backend skill at 50 percent. -/
def skillGo : Skill := ⟨1, "Go", 50, "backend", 1⟩

/-- A contact already marked read. -/
def contactRead : Contact := ⟨1, "A", "a@x.com", "Hi", "Hello there", true, 7⟩

/-- A featured video. -/
def videoOne : Video :=
  ⟨1, "vid", "abc123", "https://img.youtube.com/vi/abc123/mqdefault.jpg",
   some 0, none, true, 1⟩

/-- A blog category. -/
def catOne : Category := ⟨1, "Tech", "tech"⟩

/-- A store holding one row of each kind (and the matching serial counters). -/
def storeC1 : Store :=
  ⟨[projFeat], [skillGo], [catOne], [blogPub, blogDraft], [videoOne], [contactRead],
   2, 2, 2, 3, 2, 2⟩

/-! General lemmas about the table primitives. -/

/-- In a table whose ids are duplicate-free, rows agreeing on id are equal. -/
theorem row_eq_of_id_eq {α : Type} (getId : α → Nat) {l : List α}
    (h : (l.map getId).Nodup) {x y : α} (hx : x ∈ l) (hy : y ∈ l)
    (hxy : getId x = getId y) : x = y :=
  List.inj_on_of_nodup_map h hx hy hxy

/-- After the id-targeted map of `updateById`, the row found at `i` is the
transformed original row (provided the transform preserves the id). -/
theorem find?_map_ite {α : Type} (getId : α → Nat) (i : Nat) (f : α → α)
    (hpres : ∀ x, getId (f x) = getId x) :
    ∀ (l : List α) (a : α), l.find? (fun x => getId x == i) = some a →
      (l.map (fun y => if getId y == i then f y else y)).find? (fun x => getId x == i)
        = some (f a) := by
  intro l
  induction l with
  | nil => intro a h; simp at h
  | cons hd tl ih =>
    intro a h
    cases hc : (getId hd == i) with
    | true =>
      simp only [List.find?, hc] at h
      injection h with h
      subst h
      have hft : (getId (f hd) == i) = true := by rw [hpres]; exact hc
      simp only [List.map_cons, hc, if_true, List.find?, hft]
    | false =>
      simp only [List.find?, hc] at h
      simp only [List.map_cons, hc, Bool.false_eq_true, if_false, List.find?]
      exact ih a h

/-- The row returned by `updateById` at the queried id. -/
theorem updateById_find? {α : Type} (getId : α → Nat) (i : Nat) (f : α → α)
    (hpres : ∀ x, getId (f x) = getId x) {l : List α} {a : α}
    (h : l.find? (fun x => getId x == i) = some a) :
    ((updateById getId i f l).1).find? (fun x => getId x == i) = some (f a) := by
  unfold updateById
  rw [h]
  exact find?_map_ite getId i f hpres l a h

/-- Core behaviour of `deleteById`: reports whether a row matched, leaves no
matching row behind, is the identity when nothing matches, and a second
delete of the same id removes nothing and reports false. -/
theorem deleteById_spec {α : Type} (getId : α → Nat) (i : Nat) (l : List α) :
    ((∃ x ∈ l, getId x = i) → (deleteById getId i l).2 = true)
    ∧ (∀ x ∈ (deleteById getId i l).1, getId x ≠ i)
    ∧ ((∀ x ∈ l, getId x ≠ i) → deleteById getId i l = (l, false))
    ∧ deleteById getId i (deleteById getId i l).1 = ((deleteById getId i l).1, false) := by
  have habs : ∀ x ∈ (deleteById getId i l).1, getId x ≠ i := by
    intro x hx
    simp only [deleteById, List.mem_filter] at hx
    exact bne_iff_ne.mp hx.2
  have hnone : ∀ (m : List α), (∀ x ∈ m, getId x ≠ i) → deleteById getId i m = (m, false) := by
    intro m hm
    unfold deleteById
    have h1 : m.filter (fun x => getId x != i) = m :=
      List.filter_eq_self.mpr (fun x hx => bne_iff_ne.mpr (hm x hx))
    have h2 : m.any (fun x => getId x == i) = false := by
      rw [← Bool.not_eq_true, List.any_eq_true]
      rintro ⟨x, hx, hxi⟩
      exact hm x hx (beq_iff_eq.mp hxi)
    rw [h1, h2]
  refine ⟨?_, habs, hnone l, hnone _ habs⟩
  rintro ⟨x, hx, hxi⟩
  simp only [deleteById, List.any_eq_true]
  exact ⟨x, hx, beq_iff_eq.mpr hxi⟩

/-! Claim theorems. -/

/-- C1: GET /api/blogs answers a non-admin exactly the published blogs, but
an admin does not receive all blogs: the route feeds `!isAdmin` (here
`false`) to `getAllBlogs` as an equality filter on `published`, so the admin
response contains only the unpublished blog and omits the published one. -/
theorem c1_blogs_route_admin_filter_bug :
    getBlogsRoute adminP storeC1 = ⟨200, some [blogDraft]⟩
    ∧ getBlogsRoute publicP storeC1 = ⟨200, some [blogPub]⟩
    ∧ blogPub ∈ storeC1.blogs
    ∧ blogPub.published = true
    ∧ blogDraft.published = false := by
  refine ⟨rfl, rfl, ?_, rfl, rfl⟩
  simp [storeC1]

/-- C5: for a Blog found by id or slug with published=false, a non-admin GET
answers 404 with an empty body, identical to the answer for a missing id or
slug (hence not 403); an admin GET returns the record whether published or
not. -/
theorem c5_unpublished_blog_not_found (p : Principal) (s : Store) (i : Nat)
    (sl : String) :
    (getBlog s i = none → getBlogRoute p s i = ⟨404, none⟩)
    ∧ (∀ b, getBlog s i = some b → b.published = false → isAdmin p = false →
        getBlogRoute p s i = ⟨404, none⟩)
    ∧ (∀ b, getBlog s i = some b → isAdmin p = true → getBlogRoute p s i = ⟨200, some b⟩)
    ∧ (getBlogBySlug s sl = none → getBlogBySlugRoute p s sl = ⟨404, none⟩)
    ∧ (∀ b, getBlogBySlug s sl = some b → b.published = false → isAdmin p = false →
        getBlogBySlugRoute p s sl = ⟨404, none⟩)
    ∧ (∀ b, getBlogBySlug s sl = some b → isAdmin p = true →
        getBlogBySlugRoute p s sl = ⟨200, some b⟩) := by
  refine ⟨?_, ?_, ?_, ?_, ?_, ?_⟩
  · intro h; simp [getBlogRoute, h]
  · intro b hb hpub hadm; simp [getBlogRoute, hb, hpub, hadm]
  · intro b hb hadm; simp [getBlogRoute, hb, hadm]
  · intro h; simp [getBlogBySlugRoute, h]
  · intro b hb hpub hadm; simp [getBlogBySlugRoute, hb, hpub, hadm]
  · intro b hb hadm; simp [getBlogBySlugRoute, hb, hadm]

/-- C5 witness: on the concrete store, the draft blog reads as 404 for the
public principal by id and by slug, as 404 for a missing id, and as 200
with the record for the admin. -/
theorem c5_unpublished_blog_not_found_witness :
    getBlogRoute publicP storeC1 2 = ⟨404, none⟩
    ∧ getBlogBySlugRoute publicP storeC1 "draft-x" = ⟨404, none⟩
    ∧ getBlogRoute publicP storeC1 99 = ⟨404, none⟩
    ∧ getBlogRoute adminP storeC1 2 = ⟨200, some blogDraft⟩ := by
  refine ⟨?_, ?_, ?_, ?_⟩
  · exact (c5_unpublished_blog_not_found publicP storeC1 2 "draft-x").2.1 blogDraft
      (by decide) (by decide) (by decide)
  · exact (c5_unpublished_blog_not_found publicP storeC1 2 "draft-x").2.2.2.2.1 blogDraft
      (by decide) (by decide) (by decide)
  · exact (c5_unpublished_blog_not_found publicP storeC1 99 "draft-x").1 (by decide)
  · exact (c5_unpublished_blog_not_found adminP storeC1 2 "draft-x").2.2.1 blogDraft
      (by decide) (by decide)

/-- C6: POST /api/admin/skills with percentage 150 is not rejected: the
drizzle-zod insert schema carries no range refinement on `percentage`, so
the handler answers 201 and persists the out-of-range value (the claimed
and spec-stated behaviour is a 400 ValidationError with no record). The
category enum half does hold: an unknown category answers 400 and writes
nothing. -/
theorem c6_skill_create_range_unchecked :
    postSkillRoute adminP storeC1 ⟨"Go", 150, "backend", some 1⟩
      = (⟨201, some ⟨2, "Go", 150, "backend", 1⟩⟩,
         ⟨[projFeat], [skillGo, ⟨2, "Go", 150, "backend", 1⟩], [catOne],
          [blogPub, blogDraft], [videoOne], [contactRead], 2, 3, 2, 3, 2, 2⟩)
    ∧ ¬((150 : Int) ≤ 100)
    ∧ postSkillRoute adminP storeC1 ⟨"Go", 50, "ml", some 1⟩ = (⟨400, none⟩, storeC1) := by
  refine ⟨rfl, by decide, rfl⟩

/-- C9: a public POST /api/contacts stores a contact whose id is the next
serial value, whose `read` is false and whose `createdAt` is the server
time, always answering 201; two bodies agreeing on name, email, subject and
message produce identical responses and stores even if they differ on
client-supplied `read`, `id` or `createdAt` fields, which the insert schema
strips. -/
theorem c9_contact_create_server_owned_fields (s : Store) (body : ContactBody)
    (now : Nat) :
    postContactRoute s body now
      = (⟨201, some ⟨s.nextContactId, body.name, body.email, body.subject,
            body.message, false, now⟩⟩,
         { s with
             contacts := s.contacts ++ [⟨s.nextContactId, body.name, body.email,
               body.subject, body.message, false, now⟩]
             nextContactId := s.nextContactId + 1 })
    ∧ ∀ body2 : ContactBody, body2.name = body.name → body2.email = body.email →
        body2.subject = body.subject → body2.message = body.message →
        postContactRoute s body2 now = postContactRoute s body now := by
  constructor
  · rfl
  · intro b2 h1 h2 h3 h4
    simp [postContactRoute, parseInsertContact, createContact, h1, h2, h3, h4]

/-- C9 witness: a concrete body carrying client-supplied read, id and
createdAt fields is stored with read=false, the serial id and the server
clock, and matches the store produced by the same body without those
fields. -/
theorem c9_contact_create_server_owned_fields_witness :
    postContactRoute storeC1 ⟨"A", "a@x.com", "Hi", "Hello there", some true, some 99, some 42⟩ 50
      = (⟨201, some ⟨2, "A", "a@x.com", "Hi", "Hello there", false, 50⟩⟩,
         ⟨[projFeat], [skillGo], [catOne], [blogPub, blogDraft], [videoOne],
          [contactRead, ⟨2, "A", "a@x.com", "Hi", "Hello there", false, 50⟩],
          2, 2, 2, 3, 2, 3⟩)
    ∧ postContactRoute storeC1 ⟨"A", "a@x.com", "Hi", "Hello there", some true, some 99, some 42⟩ 50
      = postContactRoute storeC1 ⟨"A", "a@x.com", "Hi", "Hello there", none, none, none⟩ 50 := by
  constructor
  · exact (c9_contact_create_server_owned_fields storeC1
      ⟨"A", "a@x.com", "Hi", "Hello there", some true, some 99, some 42⟩ 50).1
  · exact ((c9_contact_create_server_owned_fields storeC1
      ⟨"A", "a@x.com", "Hi", "Hello there", none, none, none⟩ 50).2
      ⟨"A", "a@x.com", "Hi", "Hello there", some true, some 99, some 42⟩ rfl rfl rfl rfl)

/-- C10: GET /api/projects and GET /api/videos select the featured subset
exactly when the query parameter is the string true; any other value,
including false or an absent parameter, yields the full list, and the
response for the value false is identical to the response with no
parameter. -/
theorem c10_featured_query_exact_match (s : Store) (q : Option String) :
    (q ≠ some "true" →
      getProjectsRoute s q = ⟨200, some (getAllProjects s)⟩
      ∧ getVideosRoute s q = ⟨200, some (getAllVideos s)⟩
      ∧ getProjectsRoute s q = getProjectsRoute s none
      ∧ getVideosRoute s q = getVideosRoute s none)
    ∧ getProjectsRoute s (some "true") = ⟨200, some (getFeaturedProjects s)⟩
    ∧ getVideosRoute s (some "true") = ⟨200, some (getFeaturedVideos s)⟩
    ∧ getProjectsRoute s (some "false") = getProjectsRoute s none
    ∧ getVideosRoute s (some "false") = getVideosRoute s none := by
  refine ⟨?_, rfl, rfl, rfl, rfl⟩
  intro h
  have hb : (q == some "true") = false := beq_eq_false_iff_ne.mpr h
  refine ⟨?_, ?_, ?_, ?_⟩ <;> simp [getProjectsRoute, getVideosRoute, hb]

/-- C2 counterexample: an admin create of a second blog with the existing
slug pub-slug fails, but with HTTP 500, not the claimed 400
ValidationError; the store is unchanged. -/
theorem c2_blog_slug_duplicate_counterexample :
    postBlogRoute adminP storeC1
        ⟨"second", "pub-slug", "content two", "excerpt two", none, some "true"⟩
        (some "c.png") none 30
      = (⟨500, none⟩, storeC1)
    ∧ (postBlogRoute adminP storeC1
        ⟨"second", "pub-slug", "content two", "excerpt two", none, some "true"⟩
        (some "c.png") none 30).1.status ≠ 400 := by
  exact ⟨rfl, by decide⟩

/-- C2 amended: creating a Blog whose slug matches an existing Blog, or
updating a Blog's slug to that of a different existing Blog, fails with
HTTP 500 (the unique-constraint violation from the database is not a
ZodError, so the catch does not translate it to 400) and writes nothing:
the store is returned unchanged. -/
theorem c2_blog_slug_unique_surfaces_500 (p : Principal) (s : Store) (now : Nat)
    (hadmin : isAdmin p = true) :
    (∀ (body : BlogCreateBody) (f : String) (uid : Option Nat),
      (∃ b ∈ s.blogs, b.slug = body.slug) →
      postBlogRoute p s body (some f) uid now = (⟨500, none⟩, s))
    ∧ (∀ (i : Nat) (body : BlogUpdateBody) (file : Option String) (ex : Blog) (sl : String),
      getBlog s i = some ex → body.slug = some sl →
      (∃ b ∈ s.blogs, b.id ≠ i ∧ b.slug = sl) →
      putBlogRoute p s i body file now = (⟨500, none⟩, s)) := by
  constructor
  · rintro body f uid ⟨b, hb, hbs⟩
    have hany : s.blogs.any (fun x => x.slug == body.slug) = true :=
      List.any_eq_true.mpr ⟨b, hb, beq_iff_eq.mpr hbs⟩
    simp [postBlogRoute, hadmin, createBlog, hany]
  · rintro i body file ex sl hex hsl ⟨b, hb, hbne, hbs⟩
    have hfind : s.blogs.find? (fun x => x.id == i) = some ex := by
      simpa [getBlog, findById] using hex
    have hpt := List.find?_some hfind
    have hexid : ex.id = i := beq_iff_eq.mp hpt
    have hany : s.blogs.any (fun y => y.id != ex.id && y.slug == sl) = true := by
      refine List.any_eq_true.mpr ⟨b, hb, ?_⟩
      rw [Bool.and_eq_true]
      exact ⟨bne_iff_ne.mpr (by rw [hexid]; exact hbne), beq_iff_eq.mpr hbs⟩
    simp [putBlogRoute, hadmin, hex, updateBlog, hfind, hsl, hany]

/-- C2 witness: a concrete duplicate-slug create and a concrete update
setting blog 1's slug to blog 2's slug both answer 500 and leave the
store unchanged. -/
theorem c2_blog_slug_unique_surfaces_500_witness :
    postBlogRoute adminP storeC1 ⟨"w", "draft-x", "content w", "excerpt w", none, none⟩
        (some "w.png") none 99
      = (⟨500, none⟩, storeC1)
    ∧ putBlogRoute adminP storeC1 1 ⟨none, some "draft-x", none, none, none, none⟩
        none 99
      = (⟨500, none⟩, storeC1) := by
  constructor
  · exact (c2_blog_slug_unique_surfaces_500 adminP storeC1 99 (by decide)).1
      ⟨"w", "draft-x", "content w", "excerpt w", none, none⟩ "w.png" none
      ⟨blogDraft, by decide, rfl⟩
  · exact (c2_blog_slug_unique_surfaces_500 adminP storeC1 99 (by decide)).2
      1 ⟨none, some "draft-x", none, none, none, none⟩ none blogPub "draft-x"
      (by decide) rfl ⟨blogDraft, by decide, by decide, rfl⟩

/-- C3 counterexample: the store holds project 1 with featured=true; an
admin update supplying only the title answers 200 but the stored record
now has featured=false, so the omitted flag was not left unchanged. -/
theorem c3_update_resets_featured_counterexample :
    projFeat.featured = true
    ∧ (putProjectRoute adminP storeC1 1 ⟨some "newtitle", none, none, none, none, none⟩
        none).1.status = 200
    ∧ getProject ((putProjectRoute adminP storeC1 1
        ⟨some "newtitle", none, none, none, none, none⟩ none).2) 1
      = some ⟨1, "newtitle", "project description", "/uploads/p.png", ["ts"],
          none, none, false, none, 5⟩ := by
  exact ⟨rfl, rfl, rfl⟩

/-- C3 amended: a partial update touches only the supplied fields except
for the boolean flags, which the handlers always recompute from the body
string: updating only the title of a Project leaves every other field
unchanged but sets featured to false, and updating only the title of a
Blog leaves the other fields unchanged but sets published to false and
refreshes updatedAt to the server time. -/
theorem c3_partial_update_flags_reset (p : Principal) (s : Store) (i : Nat) (now : Nat)
    (hadmin : isAdmin p = true) :
    (∀ (pr : Project) (t : String), getProject s i = some pr →
      (putProjectRoute p s i ⟨some t, none, none, none, none, none⟩ none).1
        = ⟨200, some { pr with title := t, featured := false }⟩
      ∧ getProject ((putProjectRoute p s i ⟨some t, none, none, none, none, none⟩
          none).2) i
        = some { pr with title := t, featured := false })
    ∧ (∀ (b : Blog) (t : String), getBlog s i = some b →
      (∀ y ∈ s.blogs, y.id ≠ b.id → y.slug ≠ b.slug) →
      (putBlogRoute p s i ⟨some t, none, none, none, none, none⟩ none now).1
        = ⟨200, some { b with title := t, published := false, updatedAt := now }⟩
      ∧ getBlog ((putBlogRoute p s i ⟨some t, none, none, none, none, none⟩
          none now).2) i
        = some { b with title := t, published := false, updatedAt := now }) := by
  constructor
  · intro pr t hpr
    have hfind : s.projects.find? (fun x => x.id == i) = some pr := by
      simpa [getProject, findById] using hpr
    have happ : ∀ x : Project,
        applyProjectPatch
          ⟨some t, none, some pr.technologies, some pr.imageUrl, none, none, some false⟩ x
          = { x with title := t, technologies := pr.technologies,
                     imageUrl := pr.imageUrl, featured := false } := by
      intro x; simp [applyProjectPatch]
    have hfind2 := updateById_find? Project.id i
      (applyProjectPatch ⟨some t, none, some pr.technologies, some pr.imageUrl,
        none, none, some false⟩) (fun x => rfl) hfind
    have hb1 : ((none : Option String) == some "true") = false := rfl
    constructor
    · simp [putProjectRoute, hadmin, hpr, updateProject, updateById, hfind, happ]
    · simp only [putProjectRoute, hadmin, if_true, hpr, updateProject,
        Option.getD_none, hb1]
      simp only [getProject, findById]
      rw [hfind2, happ]
  · intro b t hb huniq
    have hfind : s.blogs.find? (fun x => x.id == i) = some b := by
      simpa [getBlog, findById] using hb
    have hnocol : s.blogs.any (fun y => y.id != b.id && y.slug == b.slug) = false := by
      rw [← Bool.not_eq_true, List.any_eq_true]
      rintro ⟨y, hy, hcond⟩
      rw [Bool.and_eq_true] at hcond
      exact huniq y hy (bne_iff_ne.mp hcond.1) (beq_iff_eq.mp hcond.2)
    have happ : ∀ x : Blog,
        applyBlogPatch ⟨some t, none, none, none, some b.imageUrl, none, some false⟩ now x
          = { x with title := t, imageUrl := b.imageUrl, published := false,
                     updatedAt := now } := by
      intro x; simp [applyBlogPatch]
    have hfind2 := updateById_find? Blog.id i
      (applyBlogPatch ⟨some t, none, none, none, some b.imageUrl, none, some false⟩ now)
      (fun x => rfl) hfind
    have hb1 : ((none : Option String) == some "true") = false := rfl
    constructor
    · simp [putBlogRoute, hadmin, hb, updateBlog, hfind, hnocol, updateById, happ]
    · simp only [putBlogRoute, hadmin, if_true, hb, updateBlog, hfind,
        Option.getD_none, hb1, hnocol, Bool.false_eq_true, if_false]
      simp only [getBlog, findById]
      rw [hfind2, happ]

/-- C3 witness: concrete title-only updates of project 1 and blog 1 answer
200 with the title changed and the featured and published flags reset to
false (updatedAt refreshed for the blog), all other fields untouched. -/
theorem c3_partial_update_flags_reset_witness :
    (putProjectRoute adminP storeC1 1 ⟨some "w1", none, none, none, none, none⟩ none).1
      = ⟨200, some { projFeat with title := "w1", featured := false }⟩
    ∧ getBlog ((putBlogRoute adminP storeC1 1 ⟨some "w2", none, none, none, none, none⟩
        none 77).2) 1
      = some { blogPub with title := "w2", published := false, updatedAt := 77 } := by
  constructor
  · exact ((c3_partial_update_flags_reset adminP storeC1 1 77 (by decide)).1
      projFeat "w1" (by decide)).1
  · exact ((c3_partial_update_flags_reset adminP storeC1 1 77 (by decide)).2
      blogPub "w2" (by decide) (by decide)).2

/-- C4 counterexample: an admin PUT on skill 1 supplying only percentage
150 answers 200 and the stored record holds percentage 150, outside
[0,100]; the claim says the merged record is re-validated and such an
update is rejected with ValidationError. -/
theorem c4_skill_update_unvalidated_counterexample :
    (putSkillRoute adminP storeC1 1 ⟨none, some 150, none, none⟩).1
      = ⟨200, some ⟨1, "Go", 150, "backend", 1⟩⟩
    ∧ getSkill ((putSkillRoute adminP storeC1 1 ⟨none, some 150, none, none⟩).2) 1
      = some ⟨1, "Go", 150, "backend", 1⟩
    ∧ ¬((150 : Int) ≤ 100) := by
  exact ⟨rfl, rfl, by decide⟩

/-- C4 amended: create handlers validate the insert schema before
persisting, but update handlers run no schema validation at all: a Skill
update may set percentage to any integer, which is persisted and answered
with 200; a category outside the enum in a Skill update fails only at the
database and surfaces as 500 (not 400), while the same category in a
Skill create is rejected by the insert schema with 400 and writes
nothing. -/
theorem c4_update_handlers_skip_validation (p : Principal) (s : Store) (i : Nat)
    (hadmin : isAdmin p = true) :
    (∀ (sk : Skill) (pct : Int), getSkill s i = some sk →
      (putSkillRoute p s i ⟨none, some pct, none, none⟩).1
        = ⟨200, some { sk with percentage := pct }⟩
      ∧ getSkill ((putSkillRoute p s i ⟨none, some pct, none, none⟩).2) i
        = some { sk with percentage := pct })
    ∧ (∀ (patch : SkillPatch) (c : String), patch.category = some c →
      skillCategories.contains c = false →
      putSkillRoute p s i patch = (⟨500, none⟩, s))
    ∧ (∀ (body : SkillCreateBody), skillCategories.contains body.category = false →
      postSkillRoute p s body = (⟨400, none⟩, s)) := by
  refine ⟨?_, ?_, ?_⟩
  · intro sk pct hsk
    have hfind : s.skills.find? (fun x => x.id == i) = some sk := by
      simpa [getSkill, findById] using hsk
    have happ : ∀ x : Skill,
        applySkillPatch ⟨none, some pct, none, none⟩ x = { x with percentage := pct } := by
      intro x; simp [applySkillPatch]
    have hfind2 := updateById_find? Skill.id i
      (applySkillPatch ⟨none, some pct, none, none⟩) (fun x => rfl) hfind
    constructor
    · simp [putSkillRoute, hadmin, updateSkill, updateById, hfind, happ]
    · simp only [putSkillRoute, hadmin, if_true, updateSkill, updateById, hfind]
      simp only [getSkill, findById]
      rw [find?_map_ite Skill.id i
        (applySkillPatch ⟨none, some pct, none, none⟩) (fun x => rfl) s.skills sk hfind,
        happ]
  · intro patch c hc hcontains
    have hmem : c ∉ skillCategories := by simpa using hcontains
    simp [putSkillRoute, hadmin, updateSkill, hc, hmem]
  · intro body hcontains
    have hmem : body.category ∉ skillCategories := by simpa using hcontains
    simp [postSkillRoute, hadmin, hmem]

/-- C4 witness: skill 1 updated to percentage 150 is stored and answered
200; a create with category ml is rejected with 400 and an unchanged
store. -/
theorem c4_update_handlers_skip_validation_witness :
    getSkill ((putSkillRoute adminP storeC1 1 ⟨none, some 150, none, none⟩).2) 1
      = some { skillGo with percentage := 150 }
    ∧ postSkillRoute adminP storeC1 ⟨"ML", 10, "ml", none⟩ = (⟨400, none⟩, storeC1) := by
  constructor
  · exact ((c4_update_handlers_skip_validation adminP storeC1 1 (by decide)).1
      skillGo 150 (by decide)).2
  · exact (c4_update_handlers_skip_validation adminP storeC1 1 (by decide)).2.2
      ⟨"ML", 10, "ml", none⟩ (by decide)

/-- C8: for each of the six entities, delete(id) returns true and leaves no
row with that id when one existed, returns the store unchanged with false
when none matched, and a second delete of the same id returns the store
unchanged with false, the record staying absent. -/
theorem c8_delete_contract (s : Store) (i : Nat) :
    (((∃ x ∈ s.projects, x.id = i) → (deleteProject s i).2 = true)
      ∧ (∀ x ∈ ((deleteProject s i).1).projects, x.id ≠ i)
      ∧ ((∀ x ∈ s.projects, x.id ≠ i) → deleteProject s i = (s, false))
      ∧ deleteProject ((deleteProject s i).1) i = ((deleteProject s i).1, false))
    ∧ (((∃ x ∈ s.skills, x.id = i) → (deleteSkill s i).2 = true)
      ∧ (∀ x ∈ ((deleteSkill s i).1).skills, x.id ≠ i)
      ∧ ((∀ x ∈ s.skills, x.id ≠ i) → deleteSkill s i = (s, false))
      ∧ deleteSkill ((deleteSkill s i).1) i = ((deleteSkill s i).1, false))
    ∧ (((∃ x ∈ s.categories, x.id = i) → (deleteCategory s i).2 = true)
      ∧ (∀ x ∈ ((deleteCategory s i).1).categories, x.id ≠ i)
      ∧ ((∀ x ∈ s.categories, x.id ≠ i) → deleteCategory s i = (s, false))
      ∧ deleteCategory ((deleteCategory s i).1) i = ((deleteCategory s i).1, false))
    ∧ (((∃ x ∈ s.blogs, x.id = i) → (deleteBlog s i).2 = true)
      ∧ (∀ x ∈ ((deleteBlog s i).1).blogs, x.id ≠ i)
      ∧ ((∀ x ∈ s.blogs, x.id ≠ i) → deleteBlog s i = (s, false))
      ∧ deleteBlog ((deleteBlog s i).1) i = ((deleteBlog s i).1, false))
    ∧ (((∃ x ∈ s.videos, x.id = i) → (deleteVideo s i).2 = true)
      ∧ (∀ x ∈ ((deleteVideo s i).1).videos, x.id ≠ i)
      ∧ ((∀ x ∈ s.videos, x.id ≠ i) → deleteVideo s i = (s, false))
      ∧ deleteVideo ((deleteVideo s i).1) i = ((deleteVideo s i).1, false))
    ∧ (((∃ x ∈ s.contacts, x.id = i) → (deleteContact s i).2 = true)
      ∧ (∀ x ∈ ((deleteContact s i).1).contacts, x.id ≠ i)
      ∧ ((∀ x ∈ s.contacts, x.id ≠ i) → deleteContact s i = (s, false))
      ∧ deleteContact ((deleteContact s i).1) i = ((deleteContact s i).1, false)) := by
  refine ⟨?_, ?_, ?_, ?_, ?_, ?_⟩
  · obtain ⟨h1, h2, h3, h4⟩ := deleteById_spec Project.id i s.projects
    refine ⟨fun h => by simpa [deleteProject] using h1 h,
      fun x hx => h2 x (by simpa [deleteProject] using hx),
      fun h => by simp [deleteProject, h3 h],
      by simp [deleteProject, h4]⟩
  · obtain ⟨h1, h2, h3, h4⟩ := deleteById_spec Skill.id i s.skills
    refine ⟨fun h => by simpa [deleteSkill] using h1 h,
      fun x hx => h2 x (by simpa [deleteSkill] using hx),
      fun h => by simp [deleteSkill, h3 h],
      by simp [deleteSkill, h4]⟩
  · obtain ⟨h1, h2, h3, h4⟩ := deleteById_spec Category.id i s.categories
    refine ⟨fun h => by simpa [deleteCategory] using h1 h,
      fun x hx => h2 x (by simpa [deleteCategory] using hx),
      fun h => by simp [deleteCategory, h3 h],
      by simp [deleteCategory, h4]⟩
  · obtain ⟨h1, h2, h3, h4⟩ := deleteById_spec Blog.id i s.blogs
    refine ⟨fun h => by simpa [deleteBlog] using h1 h,
      fun x hx => h2 x (by simpa [deleteBlog] using hx),
      fun h => by simp [deleteBlog, h3 h],
      by simp [deleteBlog, h4]⟩
  · obtain ⟨h1, h2, h3, h4⟩ := deleteById_spec Video.id i s.videos
    refine ⟨fun h => by simpa [deleteVideo] using h1 h,
      fun x hx => h2 x (by simpa [deleteVideo] using hx),
      fun h => by simp [deleteVideo, h3 h],
      by simp [deleteVideo, h4]⟩
  · obtain ⟨h1, h2, h3, h4⟩ := deleteById_spec Contact.id i s.contacts
    refine ⟨fun h => by simpa [deleteContact] using h1 h,
      fun x hx => h2 x (by simpa [deleteContact] using hx),
      fun h => by simp [deleteContact, h3 h],
      by simp [deleteContact, h4]⟩

/-- C8 witness: deleting the existing project 1 reports true, deleting the
missing blog 99 returns the unchanged store with false, and a second
delete of contact 1 returns the once-deleted store unchanged with false. -/
theorem c8_delete_contract_witness :
    (deleteProject storeC1 1).2 = true
    ∧ deleteBlog storeC1 99 = (storeC1, false)
    ∧ deleteContact ((deleteContact storeC1 1).1) 1
      = ((deleteContact storeC1 1).1, false) := by
  refine ⟨?_, ?_, ?_⟩
  · exact (c8_delete_contract storeC1 1).1.1 ⟨projFeat, by decide, rfl⟩
  · exact (c8_delete_contract storeC1 99).2.2.2.1.2.2.1 (by decide)
  · exact (c8_delete_contract storeC1 1).2.2.2.2.2.2.2.2

/-- A successful createSkill leaves the contacts table untouched. -/
theorem createSkill_contacts {s : Store} {ins : InsertSkill} {r : Store × Skill}
    (h : createSkill s ins = some r) : r.1.contacts = s.contacts := by
  unfold createSkill at h
  split at h
  · injection h with h; subst h; rfl
  · simp at h

/-- A successful updateSkill leaves the contacts table untouched. -/
theorem updateSkill_contacts {s : Store} {i : Nat} {p : SkillPatch}
    {r : Store × Option Skill} (h : updateSkill s i p = some r) :
    r.1.contacts = s.contacts := by
  unfold updateSkill at h
  split at h
  · split at h
    · injection h with h; subst h; rfl
    · simp at h
  · injection h with h; subst h; rfl

/-- A successful createCategory leaves the contacts table untouched. -/
theorem createCategory_contacts {s : Store} {ins : InsertCategory}
    {r : Store × Category} (h : createCategory s ins = some r) :
    r.1.contacts = s.contacts := by
  unfold createCategory at h
  split at h
  · simp at h
  · injection h with h; subst h; rfl

/-- A successful updateCategory leaves the contacts table untouched. -/
theorem updateCategory_contacts {s : Store} {i : Nat} {p : CategoryPatch}
    {r : Store × Option Category} (h : updateCategory s i p = some r) :
    r.1.contacts = s.contacts := by
  unfold updateCategory at h
  split at h
  · injection h with h; subst h; rfl
  · dsimp only at h
    split at h
    · simp at h
    · injection h with h; subst h; rfl

/-- A successful createBlog leaves the contacts table untouched. -/
theorem createBlog_contacts {s : Store} {ins : InsertBlog} {now : Nat}
    {r : Store × Blog} (h : createBlog s ins now = some r) :
    r.1.contacts = s.contacts := by
  unfold createBlog at h
  split at h
  · simp at h
  · injection h with h; subst h; rfl

/-- A successful updateBlog leaves the contacts table untouched. -/
theorem updateBlog_contacts {s : Store} {i : Nat} {p : BlogPatch} {now : Nat}
    {r : Store × Option Blog} (h : updateBlog s i p now = some r) :
    r.1.contacts = s.contacts := by
  unfold updateBlog at h
  split at h
  · injection h with h; subst h; rfl
  · dsimp only at h
    split at h
    · simp at h
    · injection h with h; subst h; rfl

/-- markContactAsRead either finds no row (contacts unchanged) or maps the
read flag of the matching row to true. -/
theorem markContactAsRead_contacts (s : Store) (i : Nat) :
    (markContactAsRead s i).1.contacts = s.contacts
    ∨ (markContactAsRead s i).1.contacts
      = s.contacts.map (fun y => if y.id == i then { y with read := true } else y) := by
  unfold markContactAsRead updateById
  split
  · left; rfl
  · right; rfl

/-- Every mutating request either leaves the contacts table unchanged, maps
one row's read flag to true, filters one id out, or appends a fresh contact
carrying the next serial id. -/
theorem step_contacts_shape (r : Req) (now : Nat) (s : Store) :
    (step r now s).contacts = s.contacts
    ∨ (∃ i, (step r now s).contacts
        = s.contacts.map (fun y => if y.id == i then { y with read := true } else y))
    ∨ (∃ i, (step r now s).contacts = s.contacts.filter (fun y => y.id != i))
    ∨ (∃ c : Contact, c.id = s.nextContactId
        ∧ (step r now s).contacts = s.contacts ++ [c]) := by
  cases r with
  | projectCreate p b f u =>
    left
    simp only [step, postProjectRoute]
    split
    · split
      · rfl
      · simp [createProject]
    · rfl
  | projectUpdate p i b f =>
    left
    simp only [step, putProjectRoute]
    split
    · split
      · rfl
      · simp [updateProject]
    · rfl
  | projectDelete p i =>
    left
    simp only [step, deleteProjectRoute]
    split
    · split <;> simp [deleteProject]
    · rfl
  | skillCreate p b =>
    left
    simp only [step, postSkillRoute]
    split
    · split
      · split
        · rfl
        · rename_i r heq
          exact createSkill_contacts heq
      · rfl
    · rfl
  | skillUpdate p i pt =>
    left
    simp only [step, putSkillRoute]
    split
    · split
      · rfl
      · rename_i s2 heq
        exact updateSkill_contacts heq
      · rename_i s2 sk heq
        exact updateSkill_contacts heq
    · rfl
  | skillDelete p i =>
    left
    simp only [step, deleteSkillRoute]
    split
    · split <;> simp [deleteSkill]
    · rfl
  | categoryCreate p b =>
    left
    simp only [step, postCategoryRoute]
    split
    · split
      · rfl
      · rename_i r heq
        exact createCategory_contacts heq
    · rfl
  | categoryUpdate p i pt =>
    left
    simp only [step, putCategoryRoute]
    split
    · split
      · rfl
      · rename_i s2 heq
        exact updateCategory_contacts heq
      · rename_i s2 c heq
        exact updateCategory_contacts heq
    · rfl
  | categoryDelete p i =>
    left
    simp only [step, deleteCategoryRoute]
    split
    · split <;> simp [deleteCategory]
    · rfl
  | blogCreate p b f u =>
    left
    simp only [step, postBlogRoute]
    split
    · split
      · rfl
      · split
        · rfl
        · rename_i r heq
          exact createBlog_contacts heq
    · rfl
  | blogUpdate p i b f =>
    left
    simp only [step, putBlogRoute]
    split
    · split
      · rfl
      · split
        · rfl
        · rename_i s2 ob heq
          exact updateBlog_contacts heq
    · rfl
  | blogDelete p i =>
    left
    simp only [step, deleteBlogRoute]
    split
    · split <;> simp [deleteBlog]
    · rfl
  | videoCreate p b =>
    left
    simp only [step, postVideoRoute]
    split
    · split
      · simp [createVideo]
      · rfl
    · rfl
  | videoUpdate p i b =>
    left
    simp only [step, putVideoRoute]
    split
    · split
      · rfl
      · simp [updateVideo]
    · rfl
  | videoDelete p i =>
    left
    simp only [step, deleteVideoRoute]
    split
    · split <;> simp [deleteVideo]
    · rfl
  | contactCreate b =>
    right; right; right
    exact ⟨⟨s.nextContactId, b.name, b.email, b.subject, b.message, false, now⟩,
      rfl, rfl⟩
  | contactMarkRead p i =>
    simp only [step, markContactReadRoute]
    split
    · rcases markContactAsRead_contacts s i with h | h
      · split
        · left; exact h
        · left; exact h
      · split
        · right; left; exact ⟨i, h⟩
        · right; left; exact ⟨i, h⟩
    · left; rfl
  | contactDelete p i =>
    simp only [step, deleteContactRoute]
    split
    · split
      · right; right; left; exact ⟨i, rfl⟩
      · right; right; left; exact ⟨i, rfl⟩
    · left; rfl

/-- C7: in a store whose contact ids are duplicate-free and below the
serial counter, no mutating request of the API moves a read contact back
to unread: any same-id contact surviving a request of any kind still has
read=true. Moreover every successful markContactAsRead returns a record
with read=true, and marking an already-marked contact again succeeds,
returns the same record, and leaves the store unchanged. -/
theorem c7_contact_read_one_way :
    (∀ (r : Req) (now : Nat) (s : Store) (c x : Contact),
      (s.contacts.map Contact.id).Nodup →
      (∀ y ∈ s.contacts, y.id < s.nextContactId) →
      c ∈ s.contacts → c.read = true →
      x ∈ (step r now s).contacts → x.id = c.id → x.read = true)
    ∧ (∀ (s : Store) (i : Nat) (c : Contact),
      (markContactAsRead s i).2 = some c → c.read = true)
    ∧ (∀ (s : Store) (i : Nat) (c : Contact),
      (markContactAsRead s i).2 = some c →
      markContactAsRead ((markContactAsRead s i).1) i
        = ((markContactAsRead s i).1, some c)) := by
  have hgg : ∀ i : Nat,
      (fun y : Contact => if y.id == i then { y with read := true } else y) ∘
        (fun y : Contact => if y.id == i then { y with read := true } else y)
      = (fun y : Contact => if y.id == i then { y with read := true } else y) := by
    intro i
    funext y
    by_cases hc : (y.id == i) = true
    · simp [Function.comp, hc]
    · simp [Function.comp, hc]
  refine ⟨?_, ?_, ?_⟩
  · intro r now s c x hnodup hlt hc hcread hx hid
    rcases step_contacts_shape r now s with h | ⟨i, h⟩ | ⟨i, h⟩ | ⟨c2, hc2, h⟩
    · rw [h] at hx
      have hxc : x = c := row_eq_of_id_eq Contact.id hnodup hx hc hid
      rw [hxc]; exact hcread
    · rw [h] at hx
      rcases List.mem_map.mp hx with ⟨y, hy, hxy⟩
      by_cases hyi : (y.id == i) = true
      · rw [if_pos hyi] at hxy
        rw [← hxy]
      · rw [if_neg hyi] at hxy
        subst hxy
        have hxc : y = c := row_eq_of_id_eq Contact.id hnodup hy hc hid
        rw [hxc]; exact hcread
    · rw [h] at hx
      have hxc : x = c :=
        row_eq_of_id_eq Contact.id hnodup (List.mem_of_mem_filter hx) hc hid
      rw [hxc]; exact hcread
    · rw [h] at hx
      rcases List.mem_append.mp hx with hxl | hxr
      · have hxc : x = c := row_eq_of_id_eq Contact.id hnodup hxl hc hid
        rw [hxc]; exact hcread
      · have hxc : x = c2 := List.eq_of_mem_singleton hxr
        subst hxc
        rw [hid] at hc2
        exact absurd (hc2 ▸ hlt c hc) (lt_irrefl _)
  · intro s i c h
    unfold markContactAsRead updateById at h
    dsimp only at h
    split at h
    · simp at h
    · injection h with h
      subst h
      rfl
  · intro s i c h
    unfold markContactAsRead updateById at h
    dsimp only at h
    split at h
    · simp at h
    · rename_i a hfind
      injection h with h
      have hfind2 := find?_map_ite Contact.id i (fun y => { y with read := true })
        (fun y => rfl) s.contacts a hfind
      have hmk : markContactAsRead s i
          = ({ s with contacts := s.contacts.map (fun y => if y.id == i then { y with read := true } else y) }, some { a with read := true }) := by
        unfold markContactAsRead updateById
        rw [hfind]
      rw [hmk]
      unfold markContactAsRead updateById
      dsimp only
      rw [hfind2]
      dsimp only
      rw [List.map_map, hgg i]
      congr 1
      rw [← h]

/-- C7 witness: the read contact of the concrete store survives a public
contact submission with read still true, and marking it again succeeds,
returns it, and leaves the store unchanged. -/
theorem c7_contact_read_one_way_witness :
    contactRead.read = true
    ∧ markContactAsRead ((markContactAsRead storeC1 1).1) 1
      = ((markContactAsRead storeC1 1).1, some contactRead) := by
  constructor
  · exact c7_contact_read_one_way.1
      (Req.contactCreate ⟨"B", "b@x.com", "Yo", "Hello world", none, none, none⟩)
      60 storeC1 contactRead contactRead (by decide) (by decide) (by decide)
      (by decide) (by decide) rfl
  · exact c7_contact_read_one_way.2.2 storeC1 1 contactRead (by decide)

/-- C10 witness: with the query string TRUE (and with false), the projects
route answers the full list, matching the no-parameter response. -/
theorem c10_featured_query_exact_match_witness :
    getProjectsRoute storeC1 (some "TRUE") = ⟨200, some (getAllProjects storeC1)⟩
    ∧ getProjectsRoute storeC1 (some "false") = getProjectsRoute storeC1 none := by
  constructor
  · exact ((c10_featured_query_exact_match storeC1 (some "TRUE")).1 (by decide)).1
  · exact ((c10_featured_query_exact_match storeC1 (some "false")).1 (by decide)).2.2.1

end Portfolio
